import Mathlib

/-!
# ds01 GPU notice shim (`lib/ds01_gpu_notice.c`)

A shallow embedding of the LD_PRELOAD library that hooks `cuInit` and `dlsym`.

* The two C statics (`notice_shown`, and `real` inside `get_real_dlsym`) are the
  fields of `State`; every function of the library is a function on `State`.
* Everything outside the library (the environment variable, the dynamic linker,
  the functions that the linker hands back) is an `Env`: the answers the outside
  world gives during one call into the library.  A pointer to code outside the
  library is an address; what the code at that address does when called is
  supplied by the `Env`.
* Two ghost fields record what the library does to the outside: `stderr`, the
  texts it has written to the error stream, and `trace`, the linker lookups and
  the calls through resolved pointers it has made.
* A call through a null function pointer ends the process: `Outcome.fault`.
* Code outside the library returns a value and does not call back into the
  library or touch its statics while a call is in progress. The source ignores
  the result of `fprintf`, so a write to the error stream is recorded as made.
-/

namespace Ds01GpuNotice

/-- The `unsigned int` argument of `cuInit`; the library only passes it on. -/
abbrev Flags := Nat

/-- An opaque library handle (`void *`). -/
abbrev Handle := Int

/-- The pseudo-handle `RTLD_NEXT` of glibc's `dlfcn.h`, `((void *) -1l)`. -/
def RTLD_NEXT : Handle := -1

/-- A `void *` as returned by a symbol lookup. The library's own `cuInit` is told
apart from every address outside the library. -/
inductive Ptr where
  | null
  | shim_cuInit
  | foreign (a : Nat)
deriving DecidableEq

/-- What the library does to the outside world, in order. -/
inductive Event where
  /-- The lookup `dlvsym(RTLD_NEXT, "dlsym", "GLIBC_2.2.5")` and what it found. -/
  | dlvsym (found : Option Nat)
  /-- A call through the `dlsym_fn` pointer `fn` with these arguments. -/
  | dlsym (fn : Nat) (handle : Handle) (symbol : Option String)
  /-- A call through the `cuInit_fn` pointer `fn` with these flags. -/
  | init (fn : Nat) (flags : Flags)
deriving DecidableEq

/-- The outside world as it answers during one call into the library. -/
structure Env where
  /-- Result of `getenv("CUDA_VISIBLE_DEVICES")`: `none` is a null pointer. -/
  cvd : Option String
  /-- Result of `dlvsym(RTLD_NEXT, "dlsym", "GLIBC_2.2.5")`: `none` is null. -/
  dlvsym : Option Nat
  /-- What the `dlsym_fn` at an address returns when the library calls it. -/
  dlsym_at : Nat → Handle → Option String → Ptr
  /-- What the `cuInit_fn` at an address returns when called with some flags. -/
  init_at : Nat → Flags → Int

/-- The statics of the library, with the record of its effects. -/
structure State where
  /-- The latch `static int notice_shown`. -/
  notice_shown : Int
  /-- The cache `static dlsym_fn real` of `get_real_dlsym`: `none` is `NULL`. -/
  real : Option Nat
  /-- Texts written to the error stream by the library, oldest first. -/
  stderr : List String
  /-- Lookups and calls made by the library, oldest first. -/
  trace : List Event
deriving DecidableEq

/-- The statics as the loader initialises them: latch 0, cache `NULL`. -/
def State.initial : State :=
  { notice_shown := 0, real := none, stderr := [], trace := [] }

/-- How a call into the library ends: it returns a value, or the process dies on
a call through a pointer that is not callable. Both carry the state reached. -/
inductive Outcome (α : Type) where
  | ret (value : α) (s : State)
  | fault (s : State)

/-- The state reached, whichever way the call ended. -/
def Outcome.state {α : Type} : Outcome α → State
  | Outcome.ret _ s => s
  | Outcome.fault s => s

/-- The returned value, when the call returned. -/
def Outcome.value? {α : Type} : Outcome α → Option α
  | Outcome.ret v _ => some v
  | Outcome.fault _ => none

/-- The text of the single `fprintf(stderr, ...)` of `show_gpu_notice`
(the format has no conversion, so the text is written as it stands). -/
def notice : String :=
  "\n" ++
  "\x1b[33m┌──────────────────────────────────────────────────────────┐\x1b[0m\n" ++
  "\x1b[33m│\x1b[0m  \x1b[1;33m⚠  GPU ACCESS BLOCKED\x1b[0m                                   \x1b[33m│\x1b[0m\n" ++
  "\x1b[33m│\x1b[0m                                                          \x1b[33m│\x1b[0m\n" ++
  "\x1b[33m│\x1b[0m  Host GPU compute is disabled on this server.             \x1b[33m│\x1b[0m\n" ++
  "\x1b[33m│\x1b[0m  GPU workloads must run inside containers.                \x1b[33m│\x1b[0m\n" ++
  "\x1b[33m│\x1b[0m                                                          \x1b[33m│\x1b[0m\n" ++
  "\x1b[33m│\x1b[0m  Launch a GPU container:                                  \x1b[33m│\x1b[0m\n" ++
  "\x1b[33m│\x1b[0m    $ \x1b[1mcontainer deploy <project-name>\x1b[0m                      \x1b[33m│\x1b[0m\n" ++
  "\x1b[33m│\x1b[0m                                                          \x1b[33m│\x1b[0m\n" ++
  "\x1b[33m│\x1b[0m  Check available GPUs:                                    \x1b[33m│\x1b[0m\n" ++
  "\x1b[33m│\x1b[0m    $ \x1b[1mdashboard gpu\x1b[0m                                         \x1b[33m│\x1b[0m\n" ++
  "\x1b[33m└──────────────────────────────────────────────────────────┘\x1b[0m\n" ++
  "\n"

/-- The `strcmp` of libc on strings without an embedded NUL: zero on equal
strings, negative or positive by lexicographic order otherwise. -/
def strcmp (a b : String) : Int :=
  if a = b then 0 else if a < b then -1 else 1

/-- Lines 28-51, `show_gpu_notice`. -/
def show_gpu_notice (env : Env) (s : State) : State :=
  if s.notice_shown ≠ 0 then s
  else
    match env.cvd with
    | some v =>
      if v = "" then
        { s with notice_shown := 1, stderr := s.stderr ++ [notice] }
      else s
    | none => s

/-- Lines 56-61, `get_real_dlsym`: the pointer returned and the state after. -/
def get_real_dlsym (env : Env) (s : State) : Option Nat × State :=
  match s.real with
  | some d => (some d, s)
  | none =>
    (env.dlvsym,
      { s with real := env.dlvsym, trace := s.trace ++ [Event.dlvsym env.dlvsym] })

/-- Lines 71-75 of `cuInit`: what follows once `result` is known. -/
def cuInit_finish (env : Env) (result : Int) (s : State) : Outcome Int :=
  if result ≠ 0 then Outcome.ret result (show_gpu_notice env s)
  else Outcome.ret result s

/-- Lines 64-76, `cuInit`. The pointer from `get_real_dlsym` is called without a
test, so a null one ends the process. A lookup after the library that handed
back the library's own `cuInit` would call itself without end, which ends the
process as well. -/
def cuInit (env : Env) (flags : Flags) (s : State) : Outcome Int :=
  match get_real_dlsym env s with
  | (none, s1) => Outcome.fault s1
  | (some d, s1) =>
    let s2 : State :=
      { s1 with trace := s1.trace ++ [Event.dlsym d RTLD_NEXT (some "cuInit")] }
    match env.dlsym_at d RTLD_NEXT (some "cuInit") with
    | Ptr.null => cuInit_finish env 100 s2
    | Ptr.foreign f =>
      cuInit_finish env (env.init_at f flags)
        { s2 with trace := s2.trace ++ [Event.init f flags] }
    | Ptr.shim_cuInit => Outcome.fault s2

/-- Lines 79-88, `dlsym`. -/
def dlsym (env : Env) (handle : Handle) (symbol : Option String) (s : State) :
    Outcome Ptr :=
  match get_real_dlsym env s with
  | (none, s1) => Outcome.ret Ptr.null s1
  | (some d, s1) =>
    let forward : Outcome Ptr :=
      Outcome.ret (env.dlsym_at d handle symbol)
        { s1 with trace := s1.trace ++ [Event.dlsym d handle symbol] }
    match symbol with
    | some sym => if strcmp sym "cuInit" = 0 then Outcome.ret Ptr.shim_cuInit s1 else forward
    | none => forward

/-! ## The host process around the library -/

/-- The host calls a looked-up pointer as a `cuInit_fn`: the library's own
`cuInit` runs the library, an address outside it runs the code there. -/
def call_init (env : Env) (p : Ptr) (flags : Flags) (s : State) : Outcome Int :=
  match p with
  | Ptr.null => Outcome.fault s
  | Ptr.shim_cuInit => cuInit env flags s
  | Ptr.foreign f =>
    Outcome.ret (env.init_at f flags) { s with trace := s.trace ++ [Event.init f flags] }

/-- A sequence of calls to `cuInit`, each with the outside world as it is at
that call. The statuses returned are collected; a fault ends the sequence. -/
def cuInit_seq : List (Env × Flags) → State → Outcome (List Int)
  | [], s => Outcome.ret [] s
  | c :: rest, s =>
    match cuInit c.1 c.2 s with
    | Outcome.fault s1 => Outcome.fault s1
    | Outcome.ret r s1 =>
      match cuInit_seq rest s1 with
      | Outcome.fault s2 => Outcome.fault s2
      | Outcome.ret rs s2 => Outcome.ret (r :: rs) s2

/-- One call into the library through either exported symbol. -/
inductive Call where
  | cuInit (env : Env) (flags : Flags)
  | dlsym (env : Env) (handle : Handle) (symbol : Option String)

/-- The state after a call, and whether the process survived it. -/
def Call.step : Call → State → Outcome Unit
  | Call.cuInit env flags, s =>
    match Ds01GpuNotice.cuInit env flags s with
    | Outcome.ret _ s1 => Outcome.ret () s1
    | Outcome.fault s1 => Outcome.fault s1
  | Call.dlsym env handle symbol, s =>
    match Ds01GpuNotice.dlsym env handle symbol s with
    | Outcome.ret _ s1 => Outcome.ret () s1
    | Outcome.fault s1 => Outcome.fault s1

/-- A sequence of calls through both symbols; a fault ends the sequence. -/
def run : List Call → State → Outcome Unit
  | [], s => Outcome.ret () s
  | c :: rest, s =>
    match c.step s with
    | Outcome.fault s1 => Outcome.fault s1
    | Outcome.ret _ s1 => run rest s1

/-- The calls through a `cuInit_fn` pointer recorded in a trace, in order. -/
def init_calls (tr : List Event) : List (Nat × Flags) :=
  tr.filterMap fun e =>
    match e with
    | Event.init f flags => some (f, flags)
    | _ => none

/-- The calls through a `dlsym_fn` pointer recorded in a trace, in order. -/
def dlsym_calls (tr : List Event) : List (Nat × Handle × Option String) :=
  tr.filterMap fun e =>
    match e with
    | Event.dlsym fn handle symbol => some (fn, handle, symbol)
    | _ => none

/-- The versioned lookups of the real `dlsym` recorded in a trace, in order,
each with what it found. -/
def dlvsym_lookups (tr : List Event) : List (Option Nat) :=
  tr.filterMap fun e =>
    match e with
    | Event.dlvsym found => some found
    | _ => none

/-! ## Auxiliary definitions for the statements -/

/-- The state in which `cuInit` performs its lookup of the real `cuInit`. -/
def after_lookup (env : Env) (s : State) (d : Nat) : State :=
  { (get_real_dlsym env s).2 with
    trace := (get_real_dlsym env s).2.trace ++ [Event.dlsym d RTLD_NEXT (some "cuInit")] }

/-- The cache agrees with the record: every versioned lookup found nothing,
but for a last one that found the pointer now cached, and every call to the
real `dlsym` went through the cached pointer. -/
def CacheInv (real : Option Nat) (tr : List Event) : Prop :=
  (∃ n, dlvsym_lookups tr = List.replicate n none ++ real.toList.map some) ∧
  ∀ x ∈ dlsym_calls tr, real = some x.1

/-! ## Concrete processes used to exercise the statements -/

/-- A process in which the versioned lookup finds the real `dlsym` at address 1
and the driver is loaded after the library: every lookup of "cuInit", through
a handle or by the search after the library, finds the function at address 2,
which succeeds on flags 0 and reports "no device" on any other flags. -/
def env_with_driver (cvd : Option String) : Env :=
  { cvd := cvd
    dlvsym := some 1
    dlsym_at := fun _ _ sym => if sym = some "cuInit" then Ptr.foreign 2 else Ptr.null
    init_at := fun _ flags => if flags = 0 then 0 else 100 }

/-- A process in which the versioned lookup finds the real `dlsym` at address 1
but no `cuInit` stands after the library: every lookup comes back null. -/
def env_without_driver (cvd : Option String) : Env :=
  { cvd := cvd
    dlvsym := some 1
    dlsym_at := fun _ _ _ => Ptr.null
    init_at := fun _ _ => 0 }

/-- A process in which the versioned lookup of the real `dlsym` comes back null. -/
def env_without_resolver (cvd : Option String) : Env :=
  { cvd := cvd
    dlvsym := none
    dlsym_at := fun _ _ _ => Ptr.null
    init_at := fun _ _ => 0 }

/-- A process that has opened the driver by handle 7 only: the real `dlsym` at
address 1 finds `cuInit` at address 2 through that handle, and finds nothing
by searching after the library. The function at address 2 always succeeds. -/
def env_dlopen_only : Env :=
  { cvd := none
    dlvsym := some 1
    dlsym_at := fun _ h sym =>
      if h = 7 ∧ sym = some "cuInit" then Ptr.foreign 2 else Ptr.null
    init_at := fun _ _ => 0 }

/-! ## Basic facts about the single functions -/

theorem strcmp_eq_zero_iff (a b : String) : strcmp a b = 0 ↔ a = b := by
  unfold strcmp
  by_cases h : a = b
  · simp [h]
  · by_cases h2 : a < b <;> simp [h, h2]

theorem show_gpu_notice_trace (env : Env) (s : State) :
    (show_gpu_notice env s).trace = s.trace := by
  unfold show_gpu_notice
  split
  · rfl
  · split
    · split <;> rfl
    · rfl

theorem show_gpu_notice_real (env : Env) (s : State) :
    (show_gpu_notice env s).real = s.real := by
  unfold show_gpu_notice
  split
  · rfl
  · split
    · split <;> rfl
    · rfl

theorem show_gpu_notice_latched (env : Env) (s : State) (h : s.notice_shown ≠ 0) :
    show_gpu_notice env s = s := by
  unfold show_gpu_notice
  simp [h]

theorem show_gpu_notice_fires (env : Env) (s : State) (h : s.notice_shown = 0)
    (hc : env.cvd = some "") :
    show_gpu_notice env s =
      { s with notice_shown := 1, stderr := s.stderr ++ [notice] } := by
  unfold show_gpu_notice
  simp [h, hc]

theorem show_gpu_notice_silent (env : Env) (s : State) (hc : env.cvd ≠ some "") :
    show_gpu_notice env s = s := by
  unfold show_gpu_notice
  split
  · rfl
  · split
    · rename_i v hv
      split
      · rename_i hv2
        exact absurd (by rw [hv, hv2]) hc
      · rfl
    · rfl

theorem get_real_dlsym_notice_shown (env : Env) (s : State) :
    (get_real_dlsym env s).2.notice_shown = s.notice_shown := by
  unfold get_real_dlsym
  split <;> rfl

theorem get_real_dlsym_stderr (env : Env) (s : State) :
    (get_real_dlsym env s).2.stderr = s.stderr := by
  unfold get_real_dlsym
  split <;> rfl

theorem get_real_dlsym_real (env : Env) (s : State) :
    (get_real_dlsym env s).2.real = (get_real_dlsym env s).1 := by
  unfold get_real_dlsym
  split
  · rename_i d h
    simpa using h
  · rfl

theorem get_real_dlsym_init_calls (env : Env) (s : State) :
    init_calls (get_real_dlsym env s).2.trace = init_calls s.trace := by
  unfold get_real_dlsym
  split
  · rfl
  · simp [init_calls, List.filterMap_append]

theorem cuInit_of_foreign (env : Env) (flags : Flags) (s : State) (d f : Nat)
    (hd : (get_real_dlsym env s).1 = some d)
    (hf : env.dlsym_at d RTLD_NEXT (some "cuInit") = Ptr.foreign f) :
    cuInit env flags s =
      cuInit_finish env (env.init_at f flags)
        { after_lookup env s d with
          trace := (after_lookup env s d).trace ++ [Event.init f flags] } := by
  unfold cuInit after_lookup
  rcases hg : get_real_dlsym env s with ⟨r, s1⟩
  rw [hg] at hd
  simp only at hd
  subst hd
  simp only [hf]

theorem cuInit_of_null (env : Env) (flags : Flags) (s : State) (d : Nat)
    (hd : (get_real_dlsym env s).1 = some d)
    (hf : env.dlsym_at d RTLD_NEXT (some "cuInit") = Ptr.null) :
    cuInit env flags s = cuInit_finish env 100 (after_lookup env s d) := by
  unfold cuInit after_lookup
  rcases hg : get_real_dlsym env s with ⟨r, s1⟩
  rw [hg] at hd
  simp only at hd
  subst hd
  simp only [hf]

theorem cuInit_of_unresolved (env : Env) (flags : Flags) (s : State)
    (hd : (get_real_dlsym env s).1 = none) :
    cuInit env flags s = Outcome.fault (get_real_dlsym env s).2 := by
  unfold cuInit
  rcases hg : get_real_dlsym env s with ⟨r, s1⟩
  rw [hg] at hd
  simp only at hd
  subst hd
  rfl

theorem get_real_dlsym_cached (env : Env) (s : State) (d : Nat) (h : s.real = some d) :
    get_real_dlsym env s = (some d, s) := by
  unfold get_real_dlsym
  rw [h]

theorem cuInit_finish_value (env : Env) (r : Int) (s : State) :
    (cuInit_finish env r s).value? = some r := by
  unfold cuInit_finish
  split <;> rfl

theorem cuInit_finish_real (env : Env) (r : Int) (s : State) :
    (cuInit_finish env r s).state.real = s.real := by
  unfold cuInit_finish
  split
  · exact show_gpu_notice_real env s
  · rfl

theorem cuInit_finish_trace (env : Env) (r : Int) (s : State) :
    (cuInit_finish env r s).state.trace = s.trace := by
  unfold cuInit_finish
  split
  · exact show_gpu_notice_trace env s
  · rfl

theorem cuInit_finish_ret (env : Env) (r : Int) (s : State) :
    cuInit_finish env r s = Outcome.ret r (cuInit_finish env r s).state := by
  unfold cuInit_finish
  split <;> rfl

theorem cuInit_real (env : Env) (flags : Flags) (s : State) :
    (cuInit env flags s).state.real = (get_real_dlsym env s).1 := by
  have hr := get_real_dlsym_real env s
  unfold cuInit
  rcases hg : get_real_dlsym env s with ⟨r, s1⟩
  rw [hg] at hr
  cases r with
  | none => simpa [Outcome.state] using hr
  | some d =>
    simp only
    split
    · rw [cuInit_finish_real]; exact hr
    · rw [cuInit_finish_real]; exact hr
    · exact hr

theorem show_gpu_notice_notice_shown (env : Env) (s : State) :
    (show_gpu_notice env s).notice_shown =
      if s.notice_shown = 0 ∧ env.cvd = some "" then 1 else s.notice_shown := by
  by_cases h : s.notice_shown = 0
  · by_cases hc : env.cvd = some ""
    · rw [show_gpu_notice_fires env s h hc]; simp [h, hc]
    · rw [show_gpu_notice_silent env s hc]; simp [hc]
  · rw [show_gpu_notice_latched env s h]; simp [h]

theorem show_gpu_notice_stderr (env : Env) (s : State) :
    (show_gpu_notice env s).stderr =
      if s.notice_shown = 0 ∧ env.cvd = some "" then s.stderr ++ [notice] else s.stderr := by
  by_cases h : s.notice_shown = 0
  · by_cases hc : env.cvd = some ""
    · rw [show_gpu_notice_fires env s h hc]; simp [h, hc]
    · rw [show_gpu_notice_silent env s hc]; simp [hc]
  · rw [show_gpu_notice_latched env s h]; simp [h]

theorem cuInit_finish_effect (env : Env) (r : Int) (s : State) :
    (cuInit_finish env r s).state.notice_shown =
        (if r ≠ 0 ∧ s.notice_shown = 0 ∧ env.cvd = some "" then 1 else s.notice_shown) ∧
    (cuInit_finish env r s).state.stderr =
        (if r ≠ 0 ∧ s.notice_shown = 0 ∧ env.cvd = some "" then s.stderr ++ [notice]
          else s.stderr) := by
  unfold cuInit_finish
  by_cases hr : r = 0
  · simp [hr, Outcome.state]
  · simp [hr, Outcome.state, show_gpu_notice_notice_shown, show_gpu_notice_stderr]

/-- What a returning `cuInit` has done to the latch and to the error stream. -/
theorem cuInit_ret_effect (env : Env) (flags : Flags) (s s' : State) (r : Int)
    (h : cuInit env flags s = Outcome.ret r s') :
    s'.notice_shown =
        (if r ≠ 0 ∧ s.notice_shown = 0 ∧ env.cvd = some "" then 1 else s.notice_shown) ∧
    s'.stderr =
        (if r ≠ 0 ∧ s.notice_shown = 0 ∧ env.cvd = some "" then s.stderr ++ [notice]
          else s.stderr) := by
  have h1 := get_real_dlsym_notice_shown env s
  have h2 := get_real_dlsym_stderr env s
  unfold cuInit at h
  rcases hg : get_real_dlsym env s with ⟨p, s1⟩
  rw [hg] at h h1 h2
  simp only at h1 h2
  cases p with
  | none => simp at h
  | some d =>
    simp only at h
    split at h
    · have hv := cuInit_finish_value env 100
        { s1 with trace := s1.trace ++ [Event.dlsym d RTLD_NEXT (some "cuInit")] }
      have he := cuInit_finish_effect env 100
        { s1 with trace := s1.trace ++ [Event.dlsym d RTLD_NEXT (some "cuInit")] }
      rw [h] at hv he
      simp only [Outcome.value?, Option.some.injEq] at hv
      subst hv
      simpa [Outcome.state, h1, h2] using he
    · rename_i f _
      have hv := cuInit_finish_value env (env.init_at f flags)
        { s1 with trace := s1.trace ++ [Event.dlsym d RTLD_NEXT (some "cuInit")] ++
            [Event.init f flags] }
      have he := cuInit_finish_effect env (env.init_at f flags)
        { s1 with trace := s1.trace ++ [Event.dlsym d RTLD_NEXT (some "cuInit")] ++
            [Event.init f flags] }
      rw [h] at hv he
      simp only [Outcome.value?, Option.some.injEq] at hv
      subst hv
      simpa [Outcome.state, h1, h2] using he
    · simp at h

/-- A `cuInit` that faults has written nothing and has left the latch alone. -/
theorem cuInit_fault_effect (env : Env) (flags : Flags) (s s' : State)
    (h : cuInit env flags s = Outcome.fault s') :
    s'.notice_shown = s.notice_shown ∧ s'.stderr = s.stderr := by
  have h1 := get_real_dlsym_notice_shown env s
  have h2 := get_real_dlsym_stderr env s
  unfold cuInit at h
  rcases hg : get_real_dlsym env s with ⟨p, s1⟩
  rw [hg] at h h1 h2
  simp only at h1 h2
  cases p with
  | none =>
    simp only [Outcome.fault.injEq] at h
    subst h
    exact ⟨h1, h2⟩
  | some d =>
    simp only at h
    split at h
    · rw [cuInit_finish_ret] at h; simp at h
    · rw [cuInit_finish_ret] at h; simp at h
    · simp only [Outcome.fault.injEq] at h
      subst h
      exact ⟨h1, h2⟩

theorem cuInit_seq_cons_ret (c : Env × Flags) (rest : List (Env × Flags)) (s s1 : State)
    (r : Int) (h : cuInit c.1 c.2 s = Outcome.ret r s1) :
    (cuInit_seq (c :: rest) s).state = (cuInit_seq rest s1).state ∧
    (cuInit_seq (c :: rest) s).value? = (cuInit_seq rest s1).value?.map (fun rs => r :: rs) := by
  simp only [cuInit_seq, h]
  cases cuInit_seq rest s1 <;> simp [Outcome.state, Outcome.value?]

theorem cuInit_seq_cons_fault (c : Env × Flags) (rest : List (Env × Flags)) (s s1 : State)
    (h : cuInit c.1 c.2 s = Outcome.fault s1) :
    cuInit_seq (c :: rest) s = Outcome.fault s1 := by
  simp only [cuInit_seq, h]

theorem cuInit_seq_silent (calls : List (Env × Flags)) :
    ∀ (s : State), (∀ c ∈ calls, c.1.cvd ≠ some "") →
      (cuInit_seq calls s).state.stderr = s.stderr ∧
      (cuInit_seq calls s).state.notice_shown = s.notice_shown := by
  induction calls with
  | nil => intro s _; exact ⟨rfl, rfl⟩
  | cons c rest ih =>
    intro s h
    have hc := h c (List.mem_cons_self c rest)
    cases hcall : cuInit c.1 c.2 s with
    | fault s1 =>
      rw [cuInit_seq_cons_fault c rest s s1 hcall]
      have := cuInit_fault_effect c.1 c.2 s s1 hcall
      exact ⟨this.2, this.1⟩
    | ret r s1 =>
      rw [(cuInit_seq_cons_ret c rest s s1 r hcall).1]
      have he := cuInit_ret_effect c.1 c.2 s s1 r hcall
      simp only [hc, and_false, if_false] at he
      have := ih s1 (fun c2 hc2 => h c2 (List.mem_cons_of_mem c hc2))
      rw [this.1, this.2]
      exact ⟨he.2, he.1⟩

theorem get_real_dlsym_dlsym_calls (env : Env) (s : State) :
    dlsym_calls (get_real_dlsym env s).2.trace = dlsym_calls s.trace := by
  unfold get_real_dlsym
  split
  · rfl
  · simp [dlsym_calls, List.filterMap_append]

theorem cuInit_value (env : Env) (flags : Flags) (s : State) :
    (cuInit env flags s).value? =
      match (get_real_dlsym env s).1 with
      | none => none
      | some d =>
        match env.dlsym_at d RTLD_NEXT (some "cuInit") with
        | Ptr.null => some 100
        | Ptr.foreign f => some (env.init_at f flags)
        | Ptr.shim_cuInit => none := by
  unfold cuInit
  rcases get_real_dlsym env s with ⟨p, s1⟩
  cases p with
  | none => rfl
  | some d =>
    simp only
    split
    · exact cuInit_finish_value _ _ _
    · exact cuInit_finish_value _ _ _
    · rfl

/-- The status, the error stream and the latch after `cuInit` are determined by
the resolver pointer in use, the latch and the error stream before the call. -/
theorem cuInit_observable_congr (env : Env) (flags : Flags) (s t : State)
    (hp : (get_real_dlsym env s).1 = (get_real_dlsym env t).1)
    (hl : s.notice_shown = t.notice_shown) (he : s.stderr = t.stderr) :
    (cuInit env flags s).value? = (cuInit env flags t).value? ∧
    (cuInit env flags s).state.stderr = (cuInit env flags t).state.stderr ∧
    (cuInit env flags s).state.notice_shown = (cuInit env flags t).state.notice_shown := by
  have hv : (cuInit env flags s).value? = (cuInit env flags t).value? := by
    rw [cuInit_value, cuInit_value, hp]
  refine ⟨hv, ?_⟩
  cases hs : cuInit env flags s with
  | ret r s' =>
    cases ht : cuInit env flags t with
    | ret r2 t' =>
      rw [hs, ht] at hv
      simp only [Outcome.value?, Option.some.injEq] at hv
      subst hv
      have e1 := cuInit_ret_effect env flags s s' r hs
      have e2 := cuInit_ret_effect env flags t t' r ht
      simp only [Outcome.state]
      rw [e1.1, e1.2, e2.1, e2.2, hl, he]
      exact ⟨rfl, rfl⟩
    | fault t' =>
      rw [hs, ht] at hv
      simp [Outcome.value?] at hv
  | fault s' =>
    cases ht : cuInit env flags t with
    | ret r2 t' =>
      rw [hs, ht] at hv
      simp [Outcome.value?] at hv
    | fault t' =>
      have e1 := cuInit_fault_effect env flags s s' hs
      have e2 := cuInit_fault_effect env flags t t' ht
      simp only [Outcome.state]
      rw [e1.1, e1.2, e2.1, e2.2, hl, he]
      exact ⟨rfl, rfl⟩

theorem cuInit_seq_latched (calls : List (Env × Flags)) :
    ∀ (s : State), s.notice_shown ≠ 0 →
      (cuInit_seq calls s).state.stderr = s.stderr ∧
      (cuInit_seq calls s).state.notice_shown = s.notice_shown := by
  induction calls with
  | nil => intro s _; exact ⟨rfl, rfl⟩
  | cons c rest ih =>
    intro s h
    cases hcall : cuInit c.1 c.2 s with
    | fault s1 =>
      rw [cuInit_seq_cons_fault c rest s s1 hcall]
      have := cuInit_fault_effect c.1 c.2 s s1 hcall
      exact ⟨this.2, this.1⟩
    | ret r s1 =>
      rw [(cuInit_seq_cons_ret c rest s s1 r hcall).1]
      have he := cuInit_ret_effect c.1 c.2 s s1 r hcall
      simp only [h, false_and, and_false, if_false] at he
      have := ih s1 (by rw [he.1]; exact h)
      rw [this.1, this.2]
      exact ⟨he.2, he.1⟩

theorem cuInit_seq_cons_inv (c : Env × Flags) (rest : List (Env × Flags)) (s : State)
    (statuses : List Int)
    (h : (cuInit_seq (c :: rest) s).value? = some statuses) :
    ∃ r s1 rs, cuInit c.1 c.2 s = Outcome.ret r s1 ∧
      (cuInit_seq rest s1).value? = some rs ∧ statuses = r :: rs := by
  cases hcall : cuInit c.1 c.2 s with
  | fault s1 =>
    rw [cuInit_seq_cons_fault c rest s s1 hcall] at h
    simp [Outcome.value?] at h
  | ret r s1 =>
    rw [(cuInit_seq_cons_ret c rest s s1 r hcall).2] at h
    cases hrest : (cuInit_seq rest s1).value? with
    | none => rw [hrest] at h; simp at h
    | some rs =>
      rw [hrest] at h
      simp only [Option.map_some', Option.some.injEq] at h
      exact ⟨r, s1, rs, rfl, hrest, h.symm⟩

/-- With the variable empty at every call and the latch unset, a sequence of
returning calls has written the notice exactly when some status was non-zero. -/
theorem cuInit_seq_triggered (calls : List (Env × Flags)) :
    ∀ (s : State) (statuses : List Int), s.notice_shown = 0 →
      (∀ c ∈ calls, c.1.cvd = some "") →
      (cuInit_seq calls s).value? = some statuses →
      (cuInit_seq calls s).state.stderr =
          (if ∀ r ∈ statuses, r = 0 then s.stderr else s.stderr ++ [notice]) ∧
      (cuInit_seq calls s).state.notice_shown =
          (if ∀ r ∈ statuses, r = 0 then 0 else 1) := by
  induction calls with
  | nil =>
    intro s statuses h0 _ hv
    simp only [cuInit_seq, Outcome.value?, Option.some.injEq] at hv
    subst hv
    simp [cuInit_seq, Outcome.state, h0]
  | cons c rest ih =>
    intro s statuses h0 hcvd hv
    obtain ⟨r, s1, rs, hcall, hrest, hst⟩ := cuInit_seq_cons_inv c rest s statuses hv
    subst hst
    rw [(cuInit_seq_cons_ret c rest s s1 r hcall).1]
    have he := cuInit_ret_effect c.1 c.2 s s1 r hcall
    have hc := hcvd c (List.mem_cons_self c rest)
    by_cases hr : r = 0
    · subst hr
      simp only [ne_eq, not_true_eq_false, false_and, if_false] at he
      have := ih s1 rs (by rw [he.1]; exact h0)
        (fun c2 hc2 => hcvd c2 (List.mem_cons_of_mem c hc2)) hrest
      rw [this.1, this.2, he.2]
      simp
    · simp only [ne_eq, hr, not_false_eq_true, h0, hc, and_self, if_true] at he
      have := cuInit_seq_latched rest s1 (by rw [he.1]; decide)
      rw [this.1, this.2, he.1, he.2]
      simp [hr]

theorem cuInit_seq_take (calls : List (Env × Flags)) :
    ∀ (s : State) (statuses : List Int),
      (cuInit_seq calls s).value? = some statuses →
      ∀ k, (cuInit_seq (calls.take k) s).value? = some (statuses.take k) := by
  induction calls with
  | nil =>
    intro s statuses hv k
    simp only [cuInit_seq, Outcome.value?, Option.some.injEq] at hv
    subst hv
    simp [cuInit_seq, Outcome.value?]
  | cons c rest ih =>
    intro s statuses hv k
    obtain ⟨r, s1, rs, hcall, hrest, hst⟩ := cuInit_seq_cons_inv c rest s statuses hv
    subst hst
    cases k with
    | zero => simp [cuInit_seq, Outcome.value?]
    | succ k =>
      simp only [List.take_succ_cons]
      rw [(cuInit_seq_cons_ret c (rest.take k) s s1 r hcall).2, ih s1 rs hrest k]
      rfl

/-- Whatever the calls, the error stream gains nothing or the one notice. -/
theorem cuInit_seq_at_most_once (calls : List (Env × Flags)) :
    ∀ (s : State),
      ((cuInit_seq calls s).state.stderr = s.stderr ∧
        (cuInit_seq calls s).state.notice_shown = s.notice_shown) ∨
      (s.notice_shown = 0 ∧ (cuInit_seq calls s).state.stderr = s.stderr ++ [notice] ∧
        (cuInit_seq calls s).state.notice_shown = 1) := by
  induction calls with
  | nil => intro s; exact Or.inl ⟨rfl, rfl⟩
  | cons c rest ih =>
    intro s
    cases hcall : cuInit c.1 c.2 s with
    | fault s1 =>
      rw [cuInit_seq_cons_fault c rest s s1 hcall]
      have := cuInit_fault_effect c.1 c.2 s s1 hcall
      exact Or.inl ⟨this.2, this.1⟩
    | ret r s1 =>
      rw [(cuInit_seq_cons_ret c rest s s1 r hcall).1]
      have he := cuInit_ret_effect c.1 c.2 s s1 r hcall
      by_cases hfire : r ≠ 0 ∧ s.notice_shown = 0 ∧ c.1.cvd = some ""
      · rw [if_pos hfire, if_pos hfire] at he
        have := cuInit_seq_latched rest s1 (by rw [he.1]; decide)
        rw [this.1, this.2, he.1, he.2]
        exact Or.inr ⟨hfire.2.1, rfl, rfl⟩
      · rw [if_neg hfire, if_neg hfire] at he
        rcases ih s1 with h | h
        · rw [h.1, h.2, he.1, he.2]
          exact Or.inl ⟨rfl, rfl⟩
        · rw [h.2.1, h.2.2, he.2]
          exact Or.inr ⟨by rw [← he.1]; exact h.1, rfl, rfl⟩

theorem cuInit_forwarded (env : Env) (flags : Flags) (s : State) (d f : Nat)
    (hd : (get_real_dlsym env s).1 = some d)
    (hf : env.dlsym_at d RTLD_NEXT (some "cuInit") = Ptr.foreign f) :
    ∃ s', cuInit env flags s = Outcome.ret (env.init_at f flags) s' ∧
      s'.real = some d ∧
      init_calls s'.trace = init_calls s.trace ++ [(f, flags)] := by
  have hc := cuInit_of_foreign env flags s d f hd hf
  rw [cuInit_finish_ret] at hc
  have hreal := cuInit_real env flags s
  rw [hc, hd] at hreal
  refine ⟨_, hc, hreal, ?_⟩
  rw [cuInit_finish_trace]
  simp only [after_lookup]
  have := get_real_dlsym_init_calls env s
  simp only [init_calls, List.filterMap_append] at this ⊢
  rw [this]
  simp

theorem cuInit_seq_forwarded (calls : List (Env × Flags)) :
    ∀ (s : State) (d : Nat),
      (∀ c ∈ calls, (get_real_dlsym c.1 s).1 = some d ∧
        ∃ f, c.1.dlsym_at d RTLD_NEXT (some "cuInit") = Ptr.foreign f) →
      ∃ statuses s', cuInit_seq calls s = Outcome.ret statuses s' ∧
        List.Forall₂
          (fun c r => ∃ f, c.1.dlsym_at d RTLD_NEXT (some "cuInit") = Ptr.foreign f ∧
            r = c.1.init_at f c.2)
          calls statuses := by
  induction calls with
  | nil =>
    intro s d _
    exact ⟨[], s, rfl, List.Forall₂.nil⟩
  | cons c rest ih =>
    intro s d h
    obtain ⟨hd, f, hf⟩ := h c (List.mem_cons_self c rest)
    obtain ⟨s1, hc, hreal, -⟩ := cuInit_forwarded c.1 c.2 s d f hd hf
    have hrest : ∀ c2 ∈ rest, (get_real_dlsym c2.1 s1).1 = some d ∧
        ∃ f, c2.1.dlsym_at d RTLD_NEXT (some "cuInit") = Ptr.foreign f := by
      intro c2 hc2
      refine ⟨?_, (h c2 (List.mem_cons_of_mem c hc2)).2⟩
      rw [get_real_dlsym_cached c2.1 s1 d hreal]
    obtain ⟨rs, s2, hrun, hall⟩ := ih s1 d hrest
    refine ⟨c.1.init_at f c.2 :: rs, s2, ?_, List.Forall₂.cons ⟨f, hf, rfl⟩ hall⟩
    simp only [cuInit_seq, hc, hrun]

/-! ## The resolver cache -/

theorem cacheInv_initial : CacheInv State.initial.real State.initial.trace :=
  ⟨⟨0, rfl⟩, by intro x hx; cases hx⟩

theorem cacheInv_push_init (real : Option Nat) (tr : List Event) (f : Nat) (flags : Flags)
    (h : CacheInv real tr) : CacheInv real (tr ++ [Event.init f flags]) := by
  obtain ⟨⟨n, hn⟩, hcalls⟩ := h
  refine ⟨⟨n, ?_⟩, ?_⟩
  · simpa [dlvsym_lookups, List.filterMap_append] using hn
  · intro x hx
    apply hcalls
    simpa [dlsym_calls, List.filterMap_append] using hx

theorem cacheInv_push_dlsym (d : Nat) (tr : List Event) (handle : Handle)
    (symbol : Option String) (h : CacheInv (some d) tr) :
    CacheInv (some d) (tr ++ [Event.dlsym d handle symbol]) := by
  obtain ⟨⟨n, hn⟩, hcalls⟩ := h
  refine ⟨⟨n, ?_⟩, ?_⟩
  · simpa [dlvsym_lookups, List.filterMap_append] using hn
  · intro x hx
    simp only [dlsym_calls, List.filterMap_append, List.mem_append] at hx
    rcases hx with hx | hx
    · exact hcalls x hx
    · simp only [List.filterMap_cons, List.filterMap_nil, List.mem_singleton] at hx
      rw [hx]

theorem cacheInv_get_real_dlsym (env : Env) (s : State) (h : CacheInv s.real s.trace) :
    CacheInv (get_real_dlsym env s).2.real (get_real_dlsym env s).2.trace := by
  unfold get_real_dlsym
  split
  · exact h
  · rename_i hnone
    rw [hnone] at h
    obtain ⟨⟨n, hn⟩, hcalls⟩ := h
    have hno : dlsym_calls s.trace = [] := by
      rw [List.eq_nil_iff_forall_not_mem]
      intro x hx
      cases hcalls x hx
    refine ⟨?_, ?_⟩
    · cases hfound : env.dlvsym with
      | none =>
        refine ⟨n + 1, ?_⟩
        simp only [dlvsym_lookups, List.filterMap_append] at hn ⊢
        rw [hn]
        simp [List.replicate_succ']
      | some d =>
        refine ⟨n, ?_⟩
        simp only [dlvsym_lookups, List.filterMap_append] at hn ⊢
        rw [hn]
        simp
    · intro x hx
      have : dlsym_calls (s.trace ++ [Event.dlvsym env.dlvsym]) = [] := by
        simp only [dlsym_calls, List.filterMap_append] at hno ⊢
        rw [hno]
        rfl
      simp only at hx
      rw [this] at hx
      cases hx

theorem cacheInv_cuInit (env : Env) (flags : Flags) (s : State)
    (h : CacheInv s.real s.trace) :
    CacheInv (cuInit env flags s).state.real (cuInit env flags s).state.trace := by
  have h1 := cacheInv_get_real_dlsym env s h
  have h2 := get_real_dlsym_real env s
  unfold cuInit
  rcases hg : get_real_dlsym env s with ⟨p, s1⟩
  rw [hg] at h1 h2
  simp only at h1 h2
  cases p with
  | none => exact h1
  | some d =>
    rw [h2] at h1
    simp only
    split
    · rw [cuInit_finish_real, cuInit_finish_trace]
      simp only [h2]
      exact cacheInv_push_dlsym d s1.trace _ _ h1
    · rw [cuInit_finish_real, cuInit_finish_trace]
      simp only [h2]
      exact cacheInv_push_init _ _ _ _ (cacheInv_push_dlsym d s1.trace _ _ h1)
    · simp only [Outcome.state, h2]
      exact cacheInv_push_dlsym d s1.trace _ _ h1

theorem cacheInv_dlsym (env : Env) (handle : Handle) (symbol : Option String) (s : State)
    (h : CacheInv s.real s.trace) :
    CacheInv (dlsym env handle symbol s).state.real
      (dlsym env handle symbol s).state.trace := by
  have h1 := cacheInv_get_real_dlsym env s h
  have h2 := get_real_dlsym_real env s
  unfold dlsym
  rcases hg : get_real_dlsym env s with ⟨p, s1⟩
  rw [hg] at h1 h2
  simp only at h1 h2
  cases p with
  | none => exact h1
  | some d =>
    have h3 : CacheInv (some d) s1.trace := by rw [h2] at h1; exact h1
    simp only
    split
    · split
      · exact h1
      · simp only [Outcome.state, h2]
        exact cacheInv_push_dlsym d s1.trace _ _ h3
    · simp only [Outcome.state, h2]
      exact cacheInv_push_dlsym d s1.trace _ _ h3

theorem cacheInv_step (c : Call) (s : State) (h : CacheInv s.real s.trace) :
    CacheInv (c.step s).state.real (c.step s).state.trace := by
  cases c with
  | cuInit env flags =>
    have := cacheInv_cuInit env flags s h
    simp only [Call.step]
    cases hc : cuInit env flags s <;> rw [hc] at this <;> exact this
  | dlsym env handle symbol =>
    have := cacheInv_dlsym env handle symbol s h
    simp only [Call.step]
    cases hc : dlsym env handle symbol s <;> rw [hc] at this <;> exact this

theorem cacheInv_run (calls : List Call) :
    ∀ (s : State), CacheInv s.real s.trace →
      CacheInv (run calls s).state.real (run calls s).state.trace := by
  induction calls with
  | nil => intro s h; exact h
  | cons c rest ih =>
    intro s h
    have hstep := cacheInv_step c s h
    simp only [run]
    cases hc : c.step s with
    | fault s1 => rw [hc] at hstep; exact hstep
    | ret u s1 => rw [hc] at hstep; exact ih s1 hstep

/-! ## The claims -/

/-- C1. Transparency of `cuInit`: whatever the flags, the latch and the value of
CUDA_VISIBLE_DEVICES, when the lookup of the real `cuInit` after the library
yields a function `f`, the hook calls `f` exactly once, with the flags of the
caller, and returns the status of that call. Hence over a sequence of calls
the statuses returned are, call by call, those of the real function. -/
theorem cuInit_transparent :
    (∀ (env : Env) (flags : Flags) (s : State) (d f : Nat),
      (get_real_dlsym env s).1 = some d →
      env.dlsym_at d RTLD_NEXT (some "cuInit") = Ptr.foreign f →
      ∃ s', cuInit env flags s = Outcome.ret (env.init_at f flags) s' ∧
        init_calls s'.trace = init_calls s.trace ++ [(f, flags)]) ∧
    (∀ (calls : List (Env × Flags)) (s : State) (d : Nat),
      (∀ c ∈ calls, (get_real_dlsym c.1 s).1 = some d ∧
        ∃ f, c.1.dlsym_at d RTLD_NEXT (some "cuInit") = Ptr.foreign f) →
      ∃ statuses s', cuInit_seq calls s = Outcome.ret statuses s' ∧
        List.Forall₂
          (fun c r => ∃ f, c.1.dlsym_at d RTLD_NEXT (some "cuInit") = Ptr.foreign f ∧
            r = c.1.init_at f c.2)
          calls statuses) := by
  refine ⟨?_, fun calls s d h => cuInit_seq_forwarded calls s d h⟩
  intro env flags s d f hd hf
  obtain ⟨s1, hc, -, htr⟩ := cuInit_forwarded env flags s d f hd hf
  exact ⟨s1, hc, htr⟩

/-- C1 at a concrete process: empty CUDA_VISIBLE_DEVICES, fresh statics, flags 7;
the real function at address 2 is called once with 7 and its 100 is returned. -/
theorem cuInit_transparent_witness :
    (get_real_dlsym (env_with_driver (some "")) State.initial).1 = some 1 ∧
    (env_with_driver (some "")).dlsym_at 1 RTLD_NEXT (some "cuInit") = Ptr.foreign 2 ∧
    ∃ s', cuInit (env_with_driver (some "")) 7 State.initial = Outcome.ret 100 s' ∧
      init_calls s'.trace = [(2, 7)] :=
  ⟨rfl, by simp [env_with_driver],
    cuInit_transparent.1 (env_with_driver (some "")) 7 State.initial 1 2 rfl
      (by simp [env_with_driver])⟩

/-- C2. Exactly-once notice: with CUDA_VISIBLE_DEVICES empty at every call and
the latch unset at the start, a sequence of `cuInit` calls of which at least one
returns a non-zero status writes exactly one notice; it is written by the first
failing call (after any number of calls the error stream has gained nothing
if all statuses so far were 0, and the one notice otherwise). And whatever
the calls, the variable and the latch, at most one notice is written. -/
theorem notice_exactly_once :
    (∀ (calls : List (Env × Flags)) (s : State) (statuses : List Int),
      s.notice_shown = 0 →
      (∀ c ∈ calls, c.1.cvd = some "") →
      (cuInit_seq calls s).value? = some statuses →
      (∃ r ∈ statuses, r ≠ 0) →
      (cuInit_seq calls s).state.stderr = s.stderr ++ [notice] ∧
      ∀ k, (cuInit_seq (calls.take k) s).state.stderr =
        if ∀ r ∈ statuses.take k, r = 0 then s.stderr else s.stderr ++ [notice]) ∧
    (∀ (calls : List (Env × Flags)) (s : State),
      (cuInit_seq calls s).state.stderr = s.stderr ∨
      (cuInit_seq calls s).state.stderr = s.stderr ++ [notice]) := by
  constructor
  · intro calls s statuses h0 hcvd hv hfail
    constructor
    · have := (cuInit_seq_triggered calls s statuses h0 hcvd hv).1
      rw [this]
      obtain ⟨r, hr, hne⟩ := hfail
      have hnot : ¬ ∀ r ∈ statuses, r = 0 := fun hall => hne (hall r hr)
      simp [hnot]
    · intro k
      exact (cuInit_seq_triggered (calls.take k) s (statuses.take k) h0
        (fun c hc => hcvd c (List.mem_of_mem_take hc))
        (cuInit_seq_take calls s statuses hv k)).1
  · intro calls s
    rcases cuInit_seq_at_most_once calls s with h | h
    · exact Or.inl h.1
    · exact Or.inr h.2.1

/-- C2 at a concrete process: the variable empty, statuses 0, 100, 100, 0; the
error stream ends with one notice, none after the first call, one after two. -/
theorem notice_exactly_once_witness :
    (cuInit_seq
        [(env_with_driver (some ""), 0), (env_with_driver (some ""), 1),
          (env_without_driver (some ""), 0), (env_with_driver (some ""), 0)]
        State.initial).value? = some [0, 100, 100, 0] ∧
    (cuInit_seq
        [(env_with_driver (some ""), 0), (env_with_driver (some ""), 1),
          (env_without_driver (some ""), 0), (env_with_driver (some ""), 0)]
        State.initial).state.stderr = [notice] ∧
    (cuInit_seq
        (List.take 1 [(env_with_driver (some ""), 0), (env_with_driver (some ""), 1),
          (env_without_driver (some ""), 0), (env_with_driver (some ""), 0)])
        State.initial).state.stderr = [] ∧
    (cuInit_seq
        (List.take 2 [(env_with_driver (some ""), 0), (env_with_driver (some ""), 1),
          (env_without_driver (some ""), 0), (env_with_driver (some ""), 0)])
        State.initial).state.stderr = [notice] := by
  have h := notice_exactly_once.1
    [(env_with_driver (some ""), 0), (env_with_driver (some ""), 1),
      (env_without_driver (some ""), 0), (env_with_driver (some ""), 0)]
    State.initial [0, 100, 100, 0] rfl
    (by
      intro c hc
      simp only [List.mem_cons, List.mem_singleton, List.not_mem_nil, or_false] at hc
      rcases hc with rfl | rfl | rfl | rfl <;> rfl)
    rfl ⟨100, by simp, by decide⟩
  refine ⟨rfl, h.1, ?_, ?_⟩
  · have h1 := h.2 1
    simpa [State.initial] using h1
  · have h2 := h.2 2
    simpa [State.initial] using h2

/-- C3. No notice without the trigger: with CUDA_VISIBLE_DEVICES unset or set to
a non-empty string, `show_gpu_notice` changes nothing, and over every sequence
of `cuInit` calls, whatever the real call returns, after every call the error
stream is as it was and the latch is as it was (so an unset latch stays unset). -/
theorem no_notice_without_trigger :
    (∀ (env : Env) (s : State),
      (env.cvd = none ∨ ∃ v, env.cvd = some v ∧ v ≠ "") →
      show_gpu_notice env s = s) ∧
    (∀ (calls : List (Env × Flags)) (s : State),
      (∀ c ∈ calls, c.1.cvd = none ∨ ∃ v, c.1.cvd = some v ∧ v ≠ "") →
      ∀ k, (cuInit_seq (calls.take k) s).state.stderr = s.stderr ∧
        (cuInit_seq (calls.take k) s).state.notice_shown = s.notice_shown) := by
  have key : ∀ (env : Env),
      (env.cvd = none ∨ ∃ v, env.cvd = some v ∧ v ≠ "") → env.cvd ≠ some "" := by
    intro env h heq
    rcases h with h | ⟨v, hv, hne⟩
    · rw [h] at heq; cases heq
    · rw [hv] at heq
      exact hne (Option.some.inj heq)
  constructor
  · intro env s h
    exact show_gpu_notice_silent env s (key env h)
  · intro calls s h k
    apply cuInit_seq_silent
    intro c hc
    exact key c.1 (h c (List.mem_of_mem_take hc))

/-- C3 at concrete processes: the variable unset, then set to "0"; the real
call fails three times and nothing is written, the latch stays 0. -/
theorem no_notice_without_trigger_witness :
    show_gpu_notice (env_with_driver (some "0")) State.initial = State.initial ∧
    (cuInit_seq
        (List.take 3 [(env_with_driver none, 1), (env_without_driver none, 0),
          (env_with_driver (some "0"), 5)])
        State.initial).state.stderr = [] ∧
    (cuInit_seq
        (List.take 3 [(env_with_driver none, 1), (env_without_driver none, 0),
          (env_with_driver (some "0"), 5)])
        State.initial).state.notice_shown = 0 :=
  ⟨no_notice_without_trigger.1 (env_with_driver (some "0")) State.initial
      (Or.inr ⟨"0", rfl, by decide⟩),
    no_notice_without_trigger.2
      [(env_with_driver none, 1), (env_without_driver none, 0),
        (env_with_driver (some "0"), 5)]
      State.initial
      (by
        intro c hc
        simp only [List.mem_cons, List.mem_singleton, List.not_mem_nil, or_false] at hc
        rcases hc with rfl | rfl | rfl
        · exact Or.inl rfl
        · exact Or.inl rfl
        · exact Or.inr ⟨"0", rfl, by decide⟩)
      3⟩

/-- C4. Success never triggers the notice: whatever the flags and the latch, when
the real `cuInit` returns 0 the hook returns 0, writes nothing and leaves the
latch as it was, also with CUDA_VISIBLE_DEVICES empty; a later failing call
with the variable empty and the latch unset then writes the one notice. -/
theorem success_never_triggers (env : Env) (flags : Flags) (s : State) (d f : Nat)
    (hd : (get_real_dlsym env s).1 = some d)
    (hf : env.dlsym_at d RTLD_NEXT (some "cuInit") = Ptr.foreign f)
    (hok : env.init_at f flags = 0) :
    ∃ s', cuInit env flags s = Outcome.ret 0 s' ∧
      s'.stderr = s.stderr ∧ s'.notice_shown = s.notice_shown ∧
      ∀ (env2 : Env) (flags2 : Flags) (r : Int) (s'' : State),
        s.notice_shown = 0 → env2.cvd = some "" →
        cuInit env2 flags2 s' = Outcome.ret r s'' → r ≠ 0 →
        s''.stderr = s.stderr ++ [notice] ∧ s''.notice_shown = 1 := by
  obtain ⟨s1, hc, -, -⟩ := cuInit_forwarded env flags s d f hd hf
  rw [hok] at hc
  have he := cuInit_ret_effect env flags s s1 0 hc
  simp only [ne_eq, not_true_eq_false, false_and, if_false] at he
  refine ⟨s1, hc, he.2, he.1, ?_⟩
  intro env2 flags2 r s2 hl hcvd hcall hr
  have he2 := cuInit_ret_effect env2 flags2 s1 s2 r hcall
  rw [he.1, he.2] at he2
  simp only [ne_eq, hr, not_false_eq_true, hl, hcvd, and_self, if_true] at he2
  exact ⟨he2.2, he2.1⟩

/-- C4 at a concrete process: empty CUDA_VISIBLE_DEVICES, the real call succeeds
on flags 0; nothing is written, and a failing call after it writes the notice. -/
theorem success_never_triggers_witness :
    ∃ s', cuInit (env_with_driver (some "")) 0 State.initial = Outcome.ret 0 s' ∧
      s'.stderr = [] ∧ s'.notice_shown = 0 ∧
      ∀ (env2 : Env) (flags2 : Flags) (r : Int) (s'' : State),
        State.initial.notice_shown = 0 → env2.cvd = some "" →
        cuInit env2 flags2 s' = Outcome.ret r s'' → r ≠ 0 →
        s''.stderr = [] ++ [notice] ∧ s''.notice_shown = 1 :=
  success_never_triggers (env_with_driver (some "")) 0 State.initial 1 2 rfl
    (by simp [env_with_driver]) rfl

/-- C5. Name-scoped interception: with the real lookup function available, for
every handle and every symbol argument other than exactly "cuInit" (a null
pointer included), the `dlsym` hook calls the real lookup once, with the same
handle and symbol, returns its result as it is, and leaves latch and error
stream alone. -/
theorem dlsym_forwards_other_names (env : Env) (handle : Handle)
    (symbol : Option String) (s : State) (d : Nat)
    (hd : (get_real_dlsym env s).1 = some d) (hs : symbol ≠ some "cuInit") :
    ∃ s', dlsym env handle symbol s = Outcome.ret (env.dlsym_at d handle symbol) s' ∧
      dlsym_calls s'.trace = dlsym_calls s.trace ++ [(d, handle, symbol)] ∧
      s'.notice_shown = s.notice_shown ∧ s'.stderr = s.stderr := by
  have h1 := get_real_dlsym_notice_shown env s
  have h2 := get_real_dlsym_stderr env s
  have h3 := get_real_dlsym_dlsym_calls env s
  unfold dlsym
  rcases hg : get_real_dlsym env s with ⟨p, s1⟩
  rw [hg] at hd h1 h2 h3
  simp only at hd h1 h2 h3
  subst hd
  have hfw : dlsym_calls (s1.trace ++ [Event.dlsym d handle symbol]) =
      dlsym_calls s.trace ++ [(d, handle, symbol)] := by
    rw [← h3]
    simp [dlsym_calls, List.filterMap_append]
  cases symbol with
  | none => exact ⟨_, rfl, hfw, h1, h2⟩
  | some sym =>
    have hne : ¬ strcmp sym "cuInit" = 0 := by
      rw [strcmp_eq_zero_iff]
      intro h
      exact hs (by rw [h])
    simp only [hne, if_false]
    exact ⟨_, rfl, hfw, h1, h2⟩

/-- C5 at concrete arguments: a null symbol, the empty name, "cuInit_v2" and
"cuinit" all reach the real lookup at address 1 and its answer comes back. -/
theorem dlsym_forwards_other_names_witness :
    (∃ s', dlsym (env_with_driver (some "")) 7 none State.initial = Outcome.ret Ptr.null s' ∧
      dlsym_calls s'.trace = [] ++ [(1, 7, none)] ∧
      s'.notice_shown = 0 ∧ s'.stderr = []) ∧
    (∃ s', dlsym (env_with_driver (some "")) 7 (some "") State.initial =
        Outcome.ret Ptr.null s' ∧
      dlsym_calls s'.trace = [] ++ [(1, 7, some "")] ∧
      s'.notice_shown = 0 ∧ s'.stderr = []) ∧
    (∃ s', dlsym (env_with_driver (some "")) RTLD_NEXT (some "cuInit_v2") State.initial =
        Outcome.ret Ptr.null s' ∧
      dlsym_calls s'.trace = [] ++ [(1, RTLD_NEXT, some "cuInit_v2")] ∧
      s'.notice_shown = 0 ∧ s'.stderr = []) ∧
    (∃ s', dlsym (env_with_driver (some "")) RTLD_NEXT (some "cuinit") State.initial =
        Outcome.ret Ptr.null s' ∧
      dlsym_calls s'.trace = [] ++ [(1, RTLD_NEXT, some "cuinit")] ∧
      s'.notice_shown = 0 ∧ s'.stderr = []) :=
  ⟨dlsym_forwards_other_names (env_with_driver (some "")) 7 none State.initial 1 rfl
      (by simp),
    dlsym_forwards_other_names (env_with_driver (some "")) 7 (some "") State.initial 1 rfl
      (by simp),
    dlsym_forwards_other_names (env_with_driver (some "")) RTLD_NEXT (some "cuInit_v2")
      State.initial 1 rfl (by simp),
    dlsym_forwards_other_names (env_with_driver (some "")) RTLD_NEXT (some "cuinit")
      State.initial 1 rfl (by simp)⟩

/-- C6. Direct call and lookup-then-call agree: with the real lookup function
available, for every handle the `dlsym` hook answers a lookup of "cuInit" with
the hook `cuInit` of the library, without a call to the real lookup; calling
that pointer with some flags then gives the same status, the same error stream
and the same latch as calling `cuInit` with those flags directly. -/
theorem lookup_then_call_equiv (env env2 : Env) (handle : Handle) (flags : Flags)
    (s : State) (d : Nat)
    (hd : (get_real_dlsym env s).1 = some d)
    (hd2 : (get_real_dlsym env2 s).1 = some d) :
    ∃ s1, dlsym env handle (some "cuInit") s = Outcome.ret Ptr.shim_cuInit s1 ∧
      dlsym_calls s1.trace = dlsym_calls s.trace ∧
      (call_init env2 Ptr.shim_cuInit flags s1).value? = (cuInit env2 flags s).value? ∧
      (call_init env2 Ptr.shim_cuInit flags s1).state.stderr =
        (cuInit env2 flags s).state.stderr ∧
      (call_init env2 Ptr.shim_cuInit flags s1).state.notice_shown =
        (cuInit env2 flags s).state.notice_shown := by
  have h1 := get_real_dlsym_notice_shown env s
  have h2 := get_real_dlsym_stderr env s
  have h3 := get_real_dlsym_dlsym_calls env s
  have h4 := get_real_dlsym_real env s
  have hlook : dlsym env handle (some "cuInit") s =
      Outcome.ret Ptr.shim_cuInit (get_real_dlsym env s).2 := by
    unfold dlsym
    rcases hg : get_real_dlsym env s with ⟨p, s1⟩
    rw [hg] at hd
    simp only at hd
    subst hd
    have : strcmp "cuInit" "cuInit" = 0 := (strcmp_eq_zero_iff _ _).2 rfl
    simp only [this, if_true]
  refine ⟨(get_real_dlsym env s).2, hlook, h3, ?_⟩
  rw [hd] at h4
  have hp : (get_real_dlsym env2 (get_real_dlsym env s).2).1 = (get_real_dlsym env2 s).1 := by
    rw [get_real_dlsym_cached env2 _ d h4, hd2]
  exact cuInit_observable_congr env2 flags (get_real_dlsym env s).2 s hp h1 h2

/-- C6 at a concrete process: the pointer looked up through handle 7 is the hook,
and calling it with failing flags gives 100 and one notice, as the direct call. -/
theorem lookup_then_call_equiv_witness :
    ∃ s1, dlsym (env_with_driver (some "")) 7 (some "cuInit") State.initial =
        Outcome.ret Ptr.shim_cuInit s1 ∧
      dlsym_calls s1.trace = [] ∧
      (call_init (env_with_driver (some "")) Ptr.shim_cuInit 1 s1).value? =
        (cuInit (env_with_driver (some "")) 1 State.initial).value? ∧
      (call_init (env_with_driver (some "")) Ptr.shim_cuInit 1 s1).state.stderr =
        (cuInit (env_with_driver (some "")) 1 State.initial).state.stderr ∧
      (call_init (env_with_driver (some "")) Ptr.shim_cuInit 1 s1).state.notice_shown =
        (cuInit (env_with_driver (some "")) 1 State.initial).state.notice_shown :=
  lookup_then_call_equiv (env_with_driver (some "")) (env_with_driver (some "")) 7 1
    State.initial 1 rfl rfl

/-- C7. Sentinel on an unresolved real `cuInit`: with the real lookup function
available and its lookup of "cuInit" after the library null, for every flags
the hook calls no initialisation function, returns 100, and treats the call as
failed: with CUDA_VISIBLE_DEVICES empty and the latch unset it writes the
notice and sets the latch, otherwise it writes nothing. -/
theorem sentinel_on_unresolved_init (env : Env) (flags : Flags) (s : State) (d : Nat)
    (hd : (get_real_dlsym env s).1 = some d)
    (hf : env.dlsym_at d RTLD_NEXT (some "cuInit") = Ptr.null) :
    ∃ s', cuInit env flags s = Outcome.ret 100 s' ∧
      init_calls s'.trace = init_calls s.trace ∧
      (env.cvd = some "" ∧ s.notice_shown = 0 →
        s'.stderr = s.stderr ++ [notice] ∧ s'.notice_shown = 1) ∧
      (¬ (env.cvd = some "" ∧ s.notice_shown = 0) →
        s'.stderr = s.stderr ∧ s'.notice_shown = s.notice_shown) := by
  have hc := cuInit_of_null env flags s d hd hf
  rw [cuInit_finish_ret] at hc
  have he := cuInit_ret_effect env flags s _ 100 hc
  refine ⟨_, hc, ?_, ?_, ?_⟩
  · rw [cuInit_finish_trace]
    have := get_real_dlsym_init_calls env s
    simp only [after_lookup, init_calls, List.filterMap_append] at this ⊢
    rw [this]
    simp
  · intro h
    rw [he.1, he.2]
    simp [h.1, h.2]
  · intro h
    rw [he.1, he.2]
    have : ¬ (s.notice_shown = 0 ∧ env.cvd = some "") := fun h2 => h ⟨h2.2, h2.1⟩
    simp [this]

/-- C7 at a concrete process: no `cuInit` after the library, the variable empty,
fresh statics; the hook returns 100 and the error stream holds the notice. -/
theorem sentinel_on_unresolved_init_witness :
    ∃ s', cuInit (env_without_driver (some "")) 3 State.initial = Outcome.ret 100 s' ∧
      init_calls s'.trace = [] ∧
      ((env_without_driver (some "")).cvd = some "" ∧ State.initial.notice_shown = 0 →
        s'.stderr = [] ++ [notice] ∧ s'.notice_shown = 1) ∧
      (¬ ((env_without_driver (some "")).cvd = some "" ∧ State.initial.notice_shown = 0) →
        s'.stderr = [] ∧ s'.notice_shown = 0) :=
  sentinel_on_unresolved_init (env_without_driver (some "")) 3 State.initial 1 rfl rfl

/-- C8, the code at the failing input: when the versioned lookup of the real
`dlsym` comes back null, `cuInit` calls through the null pointer, for every
flags: the process faults and no status, 100 or other, is returned. The
sibling hook `dlsym` tests the pointer and returns null in the same process. -/
theorem cuInit_faults_without_resolver :
    (get_real_dlsym (env_without_resolver (some "")) State.initial).1 = none ∧
    (∀ flags : Flags,
      cuInit (env_without_resolver (some "")) flags State.initial =
        Outcome.fault { State.initial with trace := [Event.dlvsym none] }) ∧
    (∀ (handle : Handle) (symbol : Option String),
      (dlsym (env_without_resolver (some "")) handle symbol State.initial).value? =
        some Ptr.null) := by
  refine ⟨rfl, fun flags => rfl, fun handle symbol => rfl⟩

/-- C9 as stated fails: in a process where handle 7 leads to a `cuInit` that
returns 0 and the search after the library finds none, the pointer handed out
for (7, "cuInit") returns 100 when called, not the 0 of the real function. -/
theorem dlsym_path_not_transparent :
    ¬ (∀ (env : Env) (handle : Handle) (flags : Flags) (s : State) (d f : Nat),
        (get_real_dlsym env s).1 = some d →
        env.dlsym_at d handle (some "cuInit") = Ptr.foreign f →
        ∀ (p : Ptr) (s1 : State),
          dlsym env handle (some "cuInit") s = Outcome.ret p s1 →
          (call_init env p flags s1).value? = some (env.init_at f flags)) := by
  intro h
  have h1 := h env_dlopen_only 7 0 State.initial 1 2 rfl (by simp [env_dlopen_only])
    Ptr.shim_cuInit _ rfl
  have h2 : (call_init env_dlopen_only Ptr.shim_cuInit 0
      (get_real_dlsym env_dlopen_only State.initial).2).value? = some 100 := rfl
  have h3 : (some 100 : Option Int) = some (env_dlopen_only.init_at 2 0) := h2.symm.trans h1
  simp [env_dlopen_only] at h3

/-- C9 amended. With the real lookup function available and the real lookup of
(h, "cuInit") yielding a function `f`, the pointer the `dlsym` hook hands out
is the hook `cuInit`, and calling it returns the status of the function found
by the search after the library, whatever the handle: `f(flags)` when that
search finds `f` too, `g(flags)` when it finds a function `g`, and 100 when it
finds none. -/
theorem dlsym_path_follows_load_order (env : Env) (handle : Handle) (flags : Flags)
    (s : State) (d f : Nat)
    (hd : (get_real_dlsym env s).1 = some d)
    (_hh : env.dlsym_at d handle (some "cuInit") = Ptr.foreign f) :
    ∃ s1, dlsym env handle (some "cuInit") s = Outcome.ret Ptr.shim_cuInit s1 ∧
      (env.dlsym_at d RTLD_NEXT (some "cuInit") = Ptr.foreign f →
        (call_init env Ptr.shim_cuInit flags s1).value? = some (env.init_at f flags)) ∧
      (∀ g, env.dlsym_at d RTLD_NEXT (some "cuInit") = Ptr.foreign g →
        (call_init env Ptr.shim_cuInit flags s1).value? = some (env.init_at g flags)) ∧
      (env.dlsym_at d RTLD_NEXT (some "cuInit") = Ptr.null →
        (call_init env Ptr.shim_cuInit flags s1).value? = some 100) := by
  have h4 := get_real_dlsym_real env s
  rw [hd] at h4
  have hlook : dlsym env handle (some "cuInit") s =
      Outcome.ret Ptr.shim_cuInit (get_real_dlsym env s).2 := by
    unfold dlsym
    rcases hg : get_real_dlsym env s with ⟨p, s1⟩
    rw [hg] at hd
    simp only at hd
    subst hd
    have : strcmp "cuInit" "cuInit" = 0 := (strcmp_eq_zero_iff _ _).2 rfl
    simp only [this, if_true]
  have hval : ∀ r : Option Int,
      (match env.dlsym_at d RTLD_NEXT (some "cuInit") with
        | Ptr.null => some 100
        | Ptr.foreign f => some (env.init_at f flags)
        | Ptr.shim_cuInit => none) = r →
      (call_init env Ptr.shim_cuInit flags (get_real_dlsym env s).2).value? = r := by
    intro r hr
    simp only [call_init]
    rw [cuInit_value, get_real_dlsym_cached env _ d h4]
    exact hr
  refine ⟨_, hlook, ?_, ?_, ?_⟩
  · intro hn
    apply hval
    rw [hn]
  · intro g hn
    apply hval
    rw [hn]
  · intro hn
    apply hval
    rw [hn]

/-- C9 amended, at a concrete process: handle 7 and the search after the library
both lead to the function at address 2, and the pointer handed out for
(7, "cuInit") returns the status 100 of that function on flags 1. -/
theorem dlsym_path_follows_load_order_witness :
    ∃ s1, dlsym (env_with_driver none) 7 (some "cuInit") State.initial =
        Outcome.ret Ptr.shim_cuInit s1 ∧
      (call_init (env_with_driver none) Ptr.shim_cuInit 1 s1).value? = some 100 := by
  obtain ⟨s1, h1, h2, -, -⟩ :=
    dlsym_path_follows_load_order (env_with_driver none) 7 1 State.initial 1 2 rfl
      (by simp [env_with_driver])
  exact ⟨s1, h1, h2 (by simp [env_with_driver])⟩

/-- C10 as stated fails: when the versioned lookup returns null, nothing is
cached and the next call performs it again; two calls to `dlsym` in such a
process perform two lookups. -/
theorem dlvsym_repeated_while_null :
    ¬ (∀ calls : List Call,
        (dlvsym_lookups (run calls State.initial).state.trace).length ≤ 1) := by
  intro h
  have h2 := h [Call.dlsym (env_without_resolver none) 0 (some "malloc"),
    Call.dlsym (env_without_resolver none) 0 (some "malloc")]
  revert h2
  decide

/-- C10 amended. Over every sequence of calls to `cuInit` and `dlsym` from the
start of the process, every versioned lookup of the real `dlsym` found nothing,
except that the last one may have found a pointer: that pointer is then the
one cached, no lookup follows it, and every call made to the real `dlsym` went
through it. -/
theorem resolver_cached_once_found (calls : List Call) :
    (∃ n, dlvsym_lookups (run calls State.initial).state.trace =
      List.replicate n none ++ (run calls State.initial).state.real.toList.map some) ∧
    ∀ x ∈ dlsym_calls (run calls State.initial).state.trace,
      (run calls State.initial).state.real = some x.1 :=
  cacheInv_run calls State.initial cacheInv_initial

/-- C10 amended, at a concrete process: a `dlsym` call while the versioned lookup
finds nothing, then a `dlsym` call and a `cuInit` call once it finds address 1. -/
theorem resolver_cached_once_found_witness :
    (∃ n, dlvsym_lookups
        (run [Call.dlsym (env_without_resolver none) 0 (some "malloc"),
          Call.dlsym (env_with_driver none) 0 (some "malloc"),
          Call.cuInit (env_with_driver none) 1] State.initial).state.trace =
      List.replicate n none ++
        (run [Call.dlsym (env_without_resolver none) 0 (some "malloc"),
          Call.dlsym (env_with_driver none) 0 (some "malloc"),
          Call.cuInit (env_with_driver none) 1] State.initial).state.real.toList.map some) ∧
    ∀ x ∈ dlsym_calls
        (run [Call.dlsym (env_without_resolver none) 0 (some "malloc"),
          Call.dlsym (env_with_driver none) 0 (some "malloc"),
          Call.cuInit (env_with_driver none) 1] State.initial).state.trace,
      (run [Call.dlsym (env_without_resolver none) 0 (some "malloc"),
          Call.dlsym (env_with_driver none) 0 (some "malloc"),
          Call.cuInit (env_with_driver none) 1] State.initial).state.real = some x.1 :=
  resolver_cached_once_found
    [Call.dlsym (env_without_resolver none) 0 (some "malloc"),
      Call.dlsym (env_with_driver none) 0 (some "malloc"),
      Call.cuInit (env_with_driver none) 1]

end Ds01GpuNotice
